import Mathlib

/-!
Verification of the streaming-metrics repository: a shallow embedding of the
analytics filter compiler (`src/utils/DataConnector.py`) and the ingestion
pipeline (`src/utils/update_data.py`), with theorems settling the frozen
claims about them.

Nullable database columns (and pandas NaN cells) are modelled as `Option`;
numeric SQL/pandas values as `Int`/`ℚ`.  A SQL comparison against NULL is
never satisfied, matching the `Option.none` branches below.
-/

/-- One denormalized row of the `analytics` fact table
(schema from `create_analytics_table` in `src/utils/update_data.py`).
Columns declared NOT NULL are plain fields; the rest are `Option`. -/
structure Row where
  date : Int
  platform : String
  media_type : String
  tmdb_id : Int
  title_id : Int
  release_year : Option Int
  vote_count : Option Int
  vote_average : Option ℚ
  popularity : Option ℚ
  genre : Option String
  country : Option String
  language : Option String
deriving DecidableEq

/-- The filter selection handed to `DataConnector` methods (the `filters`
dict built by the dashboard's `dcc.Store`): seven dimensions.  `rating` and
`release_year` are `None` or a `[low, high]` list in the source, so they are
`Option (List _)` here. -/
structure FilterState where
  media_type : List String
  platform : List String
  rating : Option (List ℚ)
  release_year : Option (List Int)
  genre : List String
  country : List String
  language : List String
deriving DecidableEq

/-- The full-bounds sentinel list compared against `filters["rating"]`
(`[0, 10]` in the source). -/
def ratingFullBounds : List ℚ := [0, 10]

/-- The full-bounds sentinel list compared against `filters["release-year"]`
(`[1902, 2024]` in the source). -/
def yearFullBounds : List Int := [1902, 2024]

/- ------------------------------------------------------------------
In-memory evaluator: `DataConnector._filter_demo_data`.
Each dimension builds a boolean mask; the result is their conjunction.
A pandas comparison or `isin` on a NaN cell is `False`, hence the
`Option.none => false` branches.
------------------------------------------------------------------ -/

/-- `media_filter` in `_filter_demo_data`: active only when exactly one
media type is selected; compares against the lowercased selection. -/
def demoMediaPred (f : FilterState) (r : Row) : Bool :=
  if f.media_type.length == 1 then
    r.media_type == (f.media_type.getD 0 "").toLower
  else true

/-- `platform_filter` in `_filter_demo_data`. -/
def demoPlatformPred (f : FilterState) (r : Row) : Bool :=
  if f.platform.length != 0 then f.platform.contains r.platform
  else true

/-- `rating_filter` in `_filter_demo_data`: applied whenever the rating
selection is non-null and non-empty (note: no full-bounds exemption here,
unlike the release-year mask and unlike the query path). -/
def demoRatingPred (f : FilterState) (r : Row) : Bool :=
  match f.rating with
  | none => true
  | some l =>
    if l.length > 0 then
      match r.vote_average with
      | some v => decide (l.getD 0 0 ≤ v) && decide (v ≤ l.getD 1 0)
      | none => false
    else true

/-- `year_filter` in `_filter_demo_data`: applied when the selection is
non-null, non-empty and differs from the declared full bounds. -/
def demoYearPred (f : FilterState) (r : Row) : Bool :=
  match f.release_year with
  | none => true
  | some l =>
    if l.length > 0 && l != yearFullBounds then
      match r.release_year with
      | some y => decide (l.getD 0 0 ≤ y) && decide (y ≤ l.getD 1 0)
      | none => false
    else true

/-- `genre_filter` in `_filter_demo_data`: the row's own genre column must
lie in the selected set. -/
def demoGenrePred (f : FilterState) (r : Row) : Bool :=
  if f.genre.length != 0 then
    match r.genre with
    | some g => f.genre.contains g
    | none => false
  else true

/-- `country_filter` in `_filter_demo_data`. -/
def demoCountryPred (f : FilterState) (r : Row) : Bool :=
  if f.country.length != 0 then
    match r.country with
    | some c => f.country.contains c
    | none => false
  else true

/-- `language_filter` in `_filter_demo_data`. -/
def demoLanguagePred (f : FilterState) (r : Row) : Bool :=
  if f.language.length != 0 then
    match r.language with
    | some x => f.language.contains x
    | none => false
  else true

/-- Conjunction of the seven masks, as in the final indexing expression of
`_filter_demo_data`. -/
def demoPred (f : FilterState) (r : Row) : Bool :=
  demoMediaPred f r && demoPlatformPred f r && demoRatingPred f r &&
    demoYearPred f r && demoGenrePred f r && demoCountryPred f r &&
    demoLanguagePred f r

/-- `DataConnector._filter_demo_data`, evaluated over an explicit list of
fact rows standing for `self.demo_data`. -/
def filterDemoData (f : FilterState) (T : List Row) : List Row :=
  T.filter (demoPred f)

/- ------------------------------------------------------------------
Generated-query evaluator: `DataConnector._construct_filtered_subquery`,
interpreted over the same list of fact rows standing for the `analytics`
table.  The query is a conjunction of a date clause and per-dimension
clauses; genre and country are semi-joins over the whole table.
------------------------------------------------------------------ -/

/-- `WHERE date = (SELECT MAX(date) FROM analytics)`. -/
def sqlLatestDatePred (T : List Row) (r : Row) : Bool :=
  (T.map (·.date)).max? == some r.date

/-- The two most recent distinct dates of the table
(`SELECT DISTINCT date FROM analytics ORDER BY date desc LIMIT 2`):
the maximum date, then the maximum among strictly older rows. -/
def topTwoDates (T : List Row) : List Int :=
  match (T.map (·.date)).max? with
  | none => []
  | some d1 =>
    match ((T.filter (fun t => t.date != d1)).map (·.date)).max? with
    | none => [d1]
    | some d2 => [d1, d2]

/-- `WHERE date in (... LIMIT 2)` for the `two_dates=True` variant. -/
def sqlTwoDatesPred (T : List Row) (r : Row) : Bool :=
  (topTwoDates T).contains r.date

/-- `AND media_type = '...'` clause (emitted only for a single selection). -/
def sqlMediaPred (f : FilterState) (r : Row) : Bool :=
  if f.media_type.length == 1 then
    r.media_type == (f.media_type.getD 0 "").toLower
  else true

/-- `AND platform = '...'` / `AND platform IN (...)` clause. -/
def sqlPlatformPred (f : FilterState) (r : Row) : Bool :=
  if f.platform.length != 0 then f.platform.contains r.platform
  else true

/-- Rating clause: emitted only when the selection is non-null, differs
from the full bounds `[0, 10]`, and is non-empty. -/
def sqlRatingPred (f : FilterState) (r : Row) : Bool :=
  match f.rating with
  | none => true
  | some l =>
    if l != ratingFullBounds && l.length > 0 then
      match r.vote_average with
      | some v => decide (l.getD 0 0 ≤ v) && decide (v ≤ l.getD 1 0)
      | none => false
    else true

/-- Release-year clause: emitted only when the selection is non-null,
differs from the full bounds `[1902, 2024]`, and is non-empty. -/
def sqlYearPred (f : FilterState) (r : Row) : Bool :=
  match f.release_year with
  | none => true
  | some l =>
    if l != yearFullBounds && l.length > 0 then
      match r.release_year with
      | some y => decide (l.getD 0 0 ≤ y) && decide (y ≤ l.getD 1 0)
      | none => false
    else true

/-- Genre clause: `AND title_id IN (SELECT title_id FROM analytics WHERE
genre IN ...)` — a semi-join over the whole table, keeping every row of any
title that has some matching genre row. -/
def sqlGenrePred (f : FilterState) (T : List Row) (r : Row) : Bool :=
  if f.genre.length > 0 then
    T.any (fun t =>
      t.title_id == r.title_id &&
        match t.genre with
        | some g => f.genre.contains g
        | none => false)
  else true

/-- Country clause: semi-join over the whole table, like the genre clause. -/
def sqlCountryPred (f : FilterState) (T : List Row) (r : Row) : Bool :=
  if f.country.length > 0 then
    T.any (fun t =>
      t.title_id == r.title_id &&
        match t.country with
        | some c => f.country.contains c
        | none => false)
  else true

/-- `AND language = '...'` / `AND language IN (...)` clause. -/
def sqlLanguagePred (f : FilterState) (r : Row) : Bool :=
  if f.language.length != 0 then
    match r.language with
    | some x => f.language.contains x
    | none => false
  else true

/-- The dimension clauses shared by both date variants of
`_construct_filtered_subquery`. -/
def sqlDimsPred (f : FilterState) (T : List Row) (r : Row) : Bool :=
  sqlMediaPred f r && sqlPlatformPred f r && sqlRatingPred f r &&
    sqlYearPred f r && sqlGenrePred f T r && sqlCountryPred f T r &&
    sqlLanguagePred f r

/-- `_construct_filtered_subquery(filters)` (default `two_dates=False`)
evaluated over the fact rows `T`. -/
def constructFilteredSubquery (f : FilterState) (T : List Row) : List Row :=
  T.filter (fun r => sqlLatestDatePred T r && sqlDimsPred f T r)

/-- `_construct_filtered_subquery(filters, two_dates=True)` evaluated over
the fact rows `T`. -/
def constructFilteredSubqueryTwoDates (f : FilterState) (T : List Row) :
    List Row :=
  T.filter (fun r => sqlTwoDatesPred T r && sqlDimsPred f T r)

/- ------------------------------------------------------------------
Helper lemmas about lists of equal dates.
------------------------------------------------------------------ -/

theorem foldl_max_const (bs : List Int) (b : Int) (h : ∀ x ∈ bs, x = b) :
    bs.foldl max b = b := by
  induction bs with
  | nil => rfl
  | cons c cs ih =>
    have hc : c = b := h c (by simp)
    subst hc
    simp only [List.foldl, max_self]
    exact ih (fun x hx => h x (by simp [hx]))

theorem max?_const (l : List Int) (a : Int) (h1 : a ∈ l)
    (h2 : ∀ x ∈ l, x = a) : l.max? = some a := by
  cases l with
  | nil => simp at h1
  | cons b bs =>
    have hb : b = a := h2 b (by simp)
    subst hb
    simp only [List.max?]
    exact congrArg some (foldl_max_const bs b (fun x hx => h2 x (by simp [hx])))

/- ------------------------------------------------------------------
Concrete rows and filter states used by counterexamples and witnesses.
------------------------------------------------------------------ -/

/-- A fact row: a movie on platform "P" carrying genre "A". -/
def rowA : Row :=
  { date := 1, platform := "P", media_type := "movie", tmdb_id := 10,
    title_id := 100, release_year := some 2000, vote_count := some 5,
    vote_average := some 5, popularity := some 1, genre := some "A",
    country := some "US", language := some "English" }

/-- The same title's second fan-out row, carrying genre "B". -/
def rowB : Row := { rowA with genre := some "B" }

/-- A fact row whose `vote_average` is NULL (e.g. a title whose detail fetch
failed: the merger's left joins still emit the row). -/
def rowN : Row := { rowA with vote_average := none }

/-- A filter selecting only genre "A", every other dimension unconstrained. -/
def genreOnlyFilter : FilterState :=
  { media_type := [], platform := [], rating := none, release_year := none,
    genre := ["A"], country := [], language := [] }

/-- The all-sentinel filter state: media-type set of size ≠ 1, empty
set-valued dimensions, both ranges at their declared full bounds. -/
def sentinelFilter : FilterState :=
  { media_type := [], platform := [], rating := some [0, 10],
    release_year := some [1902, 2024], genre := [], country := [],
    language := [] }

/-- A filter with empty genre/country and a rating range away from the full
bounds. -/
def narrowedFilter : FilterState :=
  { media_type := [], platform := ["P"], rating := some [2, 8],
    release_year := some [1990, 2010], genre := [], country := [],
    language := [] }

/- ------------------------------------------------------------------
C1.  The two evaluators on the same rows.
------------------------------------------------------------------ -/

/-- C1 (counterexample): the claim "the in-memory evaluator and the
generated-query evaluator select exactly the same set of fact rows for
every FilterState and every collection of fact rows" is false.  With one
title fanned out into a genre-"A" row and a genre-"B" row and the filter
selecting genre "A", the generated query keeps both rows of the title
(its genre clause is a per-title semi-join) while the in-memory evaluator
keeps only the row whose own genre column is "A". -/
theorem c1_evaluators_differ_on_genre :
    rowB ∈ constructFilteredSubquery genreOnlyFilter [rowA, rowB] ∧
    rowB ∉ filterDemoData genreOnlyFilter [rowA, rowB] ∧
    filterDemoData genreOnlyFilter [rowA, rowB] = [rowA] ∧
    constructFilteredSubquery genreOnlyFilter [rowA, rowB] = [rowA, rowB] :=
  ⟨by decide, by decide, by decide, by decide⟩

/-- C1 (amended): on a single-date collection of fact rows, the two
evaluators select exactly the same rows for every FilterState whose genre
and country dimensions are empty and whose rating selection is not the
full-bounds list `[0, 10]`.  (When a genre or country constraint is active
the in-memory evaluator matches the row's own genre/country column while
the query keeps every row of any title with a matching relation; and at
rating exactly `[0, 10]` the in-memory evaluator still applies the range,
dropping null-rating rows, while the query emits no rating clause.) -/
theorem c1_evaluators_agree (f : FilterState) (T : List Row)
    (hg : f.genre = []) (hc : f.country = [])
    (hr : f.rating ≠ some ratingFullBounds)
    (hd : ∀ r ∈ T, ∀ s ∈ T, r.date = s.date) :
    filterDemoData f T = constructFilteredSubquery f T := by
  unfold filterDemoData constructFilteredSubquery
  apply List.filter_congr
  intro r hrT
  have hdate : sqlLatestDatePred T r = true := by
    unfold sqlLatestDatePred
    have : (T.map (·.date)).max? = some r.date := by
      apply max?_const
      · exact List.mem_map_of_mem (·.date) hrT
      · intro x hx
        obtain ⟨s, hs, rfl⟩ := List.mem_map.mp hx
        exact hd s hs r hrT
    simp [this]
  have hmedia : demoMediaPred f r = sqlMediaPred f r := rfl
  have hplat : demoPlatformPred f r = sqlPlatformPred f r := rfl
  have hlang : demoLanguagePred f r = sqlLanguagePred f r := rfl
  have hrat : demoRatingPred f r = sqlRatingPred f r := by
    unfold demoRatingPred sqlRatingPred
    cases hfr : f.rating with
    | none => rfl
    | some l =>
      have hne : l ≠ ratingFullBounds := by
        intro h; exact hr (by rw [hfr, h])
      simp [hne]
  have hyear : demoYearPred f r = sqlYearPred f r := by
    unfold demoYearPred sqlYearPred
    cases f.release_year with
    | none => rfl
    | some l => simp only [Bool.and_comm]
  have hgen : demoGenrePred f r = sqlGenrePred f T r := by
    unfold demoGenrePred sqlGenrePred
    simp [hg]
  have hcou : demoCountryPred f r = sqlCountryPred f T r := by
    unfold demoCountryPred sqlCountryPred
    simp [hc]
  unfold demoPred sqlDimsPred
  rw [hdate, hmedia, hplat, hrat, hyear, hgen, hcou, hlang]
  simp

/-- C1 (witness): the amended equivalence at a concrete filter (platform
and both ranges constrained, genre/country empty) over a concrete
single-date pair of rows. -/
theorem c1_evaluators_agree_witness :
    filterDemoData narrowedFilter [rowA, rowB] =
      constructFilteredSubquery narrowedFilter [rowA, rowB] :=
  c1_evaluators_agree narrowedFilter [rowA, rowB] (by decide) (by decide)
    (by decide) (by decide)

/- ------------------------------------------------------------------
C2.  The all-sentinel filter state is not a no-op in memory.
------------------------------------------------------------------ -/

/-- C2 (code bug): with every dimension at its no-constraint sentinel, the
generated query selects the whole single-date snapshot, but the in-memory
evaluator still applies the full-bounds rating range `[0, 10]` (its rating
branch lacks the `!= [0, 10]` exemption present in its own release-year
branch and in the query path) and therefore drops a row whose
`vote_average` is null, changing the row count from 1 to 0. -/
theorem c2_sentinel_filter_drops_null_rating :
    filterDemoData sentinelFilter [rowN] = [] ∧
    constructFilteredSubquery sentinelFilter [rowN] = [rowN] :=
  ⟨by decide, by decide⟩

/- ------------------------------------------------------------------
C4.  Retrying HTTP wrapper: `repeat_get_request` in
`src/utils/update_data.py`.  The upstream endpoint is a function from the
attempt index to (status code, parsed body).
------------------------------------------------------------------ -/

/-- The `while status_code != 200 and attempts < max_retries` loop of
`repeat_get_request`.  State: remaining allowed attempts, attempts made so
far, last status code, last body.  Returns the final
(status, attempts, body). -/
def repeatGetLoop (responses : Nat → Nat × α) :
    Nat → Nat → Nat → Option α → Nat × Nat × Option α
  | 0, attempts, status, body => (status, attempts, body)
  | remaining + 1, attempts, status, body =>
    if status != 200 then
      repeatGetLoop responses remaining (attempts + 1)
        (responses attempts).1 (some (responses attempts).2)
    else (status, attempts, body)

/-- `repeat_get_request(url, ..., max_retries)`: starts from the sentinel
status 429 and zero attempts; afterwards returns the JSON body on a 200
status and `None` otherwise.  The second component counts the GET requests
actually issued. -/
def repeat_get_request (responses : Nat → Nat × α) (max_retries : Nat) :
    Option α × Nat :=
  let (status, attempts, body) := repeatGetLoop responses max_retries 0 429 none
  (if status == 200 then body else none, attempts)

theorem repeatGetLoop_all_fail (responses : Nat → Nat × α)
    (remaining attempts status : Nat) (body : Option α)
    (hst : status ≠ 200)
    (hfail : ∀ k, attempts ≤ k → k < attempts + remaining →
      (responses k).1 ≠ 200) :
    ∃ status' body',
      repeatGetLoop responses remaining attempts status body =
        (status', attempts + remaining, body') ∧ status' ≠ 200 := by
  induction remaining generalizing attempts status body with
  | zero => exact ⟨status, body, by simp [repeatGetLoop], hst⟩
  | succ rem ih =>
    have hstep : (responses attempts).1 ≠ 200 :=
      hfail attempts (le_refl _) (by omega)
    have hrec := ih (attempts + 1) (responses attempts).1
      (some (responses attempts).2) hstep
      (fun k hk1 hk2 => hfail k (by omega) (by omega))
    obtain ⟨st', b', heq, hne⟩ := hrec
    refine ⟨st', b', ?_, hne⟩
    simp only [repeatGetLoop]
    rw [if_pos (by simpa using hst)]
    rw [heq]
    have harith : attempts + 1 + rem = attempts + (rem + 1) := by omega
    rw [harith]

/-- C4: when every response from the endpoint carries a non-200
(rate-limited) status, `repeat_get_request` issues exactly `max_retries`
requests and returns the failure value `None`. -/
theorem c4_retry_exhaustion_returns_none (responses : Nat → Nat × α)
    (max_retries : Nat)
    (hfail : ∀ k, k < max_retries → (responses k).1 ≠ 200) :
    repeat_get_request responses max_retries = (none, max_retries) := by
  unfold repeat_get_request
  obtain ⟨st', b', heq, hne⟩ := repeatGetLoop_all_fail responses max_retries
    0 429 none (by omega) (fun k hk1 hk2 => hfail k (by omega))
  rw [heq]
  simp [hne]

/-- C4 (witness): a mock endpoint that always answers 429; five attempts
are made and the result is `None`. -/
theorem c4_retry_exhaustion_witness :
    repeat_get_request (fun _ => ((429, 0) : Nat × Nat)) 5 = (none, 5) :=
  c4_retry_exhaustion_returns_none (fun _ => ((429, 0) : Nat × Nat)) 5
    (fun k _ => by simp)

/- ------------------------------------------------------------------
C3 / C5 (catalog half).  Catalog paginator: the per-platform while loop of
`pull_watchmode_catalogs` in `src/utils/update_data.py`.  The server is a
function from the call index to the response of that call;
`repeat_get_request` may hand the loop `None`, which the loop body
dereferences unchecked (`page_results.get("titles")` /
`page_results["page"]`), modelled as an `Except.error`.
------------------------------------------------------------------ -/

/-- One page of the listing endpoint: the server-reported `page` and
`total_pages` fields and the page's title stubs. -/
structure PageResponse where
  page : Nat
  total_pages : Nat
  titles : List Nat
deriving DecidableEq

/-- The `while page <= total_pages` loop of `pull_watchmode_catalogs`.
State: fuel (to make the possibly-divergent loop a total function), the
page about to be requested, the current `total_pages`, the call index, the
accumulated titles, and the pages requested so far.  Returns `none` when
fuel runs out (the loop is still running), `some (.error ())` when a call
came back `None` and the body crashed dereferencing it, and
`some (.ok (titles, requests))` on normal exit. -/
def catalogRun (server : Nat → Option PageResponse) :
    Nat → Nat → Nat → Nat → List Nat → List Nat →
    Option (Except Unit (List Nat × List Nat))
  | 0, _, _, _, _, _ => none
  | fuel + 1, page, total, k, acc, reqs =>
    if page ≤ total then
      match server k with
      | none => some (.error ())
      | some pr =>
        catalogRun server fuel (pr.page + 1) pr.total_pages (k + 1)
          (acc ++ pr.titles) (reqs ++ [page])
    else some (.ok (acc, reqs))

/-- One platform's catalog pull: `page = 1`, `total_pages = 2` initial
assumptions, as in the source. -/
def pullCatalogPlatform (server : Nat → Option PageResponse) (fuel : Nat) :
    Option (Except Unit (List Nat × List Nat)) :=
  catalogRun server fuel 1 2 0 [] []

theorem resp_total_le (resp : Nat → PageResponse)
    (hs : ∀ k, (resp (k + 1)).total_pages ≤ (resp k).total_pages) :
    ∀ j, (resp j).total_pages ≤ (resp 0).total_pages := by
  intro j
  induction j with
  | zero => exact le_refl _
  | succ i ih => exact le_trans (hs i) ih

theorem resp_page_eq (resp : Nat → PageResponse)
    (hp0 : (resp 0).page = 1)
    (hp : ∀ k, (resp (k + 1)).page = (resp k).page + 1) :
    ∀ k, (resp k).page = k + 1 := by
  intro k
  induction k with
  | zero => exact hp0
  | succ i ih => rw [hp i, ih]

theorem catalogRun_echo_terminates (resp : Nat → PageResponse)
    (hpk : ∀ k, (resp k).page = k + 1)
    (hs : ∀ k, (resp (k + 1)).total_pages ≤ (resp k).total_pages) :
    ∀ (fuel k : Nat) (acc reqs : List Nat),
      1 ≤ k → k ≤ (resp 0).total_pages + 1 →
      k + fuel = (resp 0).total_pages + 2 →
      reqs.length = k →
      ∃ titles tail,
        catalogRun (fun i => some (resp i)) fuel (k + 1)
            ((resp (k - 1)).total_pages) k acc reqs =
          some (.ok (titles, reqs ++ tail)) ∧
        ∀ i, i < tail.length →
          tail.getD i 0 = k + i + 1 ∧
          k + i + 1 ≤ (resp (k + i - 1)).total_pages := by
  intro fuel
  induction fuel with
  | zero =>
    intro k acc reqs hk1 hk2 hsum hlen
    omega
  | succ f ih =>
    intro k acc reqs hk1 hk2 hsum hlen
    by_cases hguard : k + 1 ≤ (resp (k - 1)).total_pages
    · -- the loop body runs: request page k+1 at call k
      have hbound : k + 1 ≤ (resp 0).total_pages := by
        have := resp_total_le resp hs (k - 1)
        omega
      have hstep := ih (k + 1) (acc ++ (resp k).titles) (reqs ++ [k + 1])
        (by omega) (by omega) (by omega) (by simp [hlen])
      rw [show (k + 1 - 1) = k by omega] at hstep
      obtain ⟨titles, tail, heq, htail⟩ := hstep
      refine ⟨titles, (k + 1) :: tail, ?_, ?_⟩
      · simp only [catalogRun]
        rw [if_pos hguard]
        rw [hpk k]
        rw [heq]
        simp
      · intro i hi
        cases i with
        | zero =>
          refine ⟨by simp, ?_⟩
          simpa using hguard
        | succ i' =>
          have h' := htail i' (by simpa using hi)
          constructor
          · have : ((k + 1) :: tail).getD (i' + 1) 0 = tail.getD i' 0 := rfl
            rw [this, h'.1]
            omega
          · have := h'.2
            have hidx : k + 1 + i' - 1 = k + (i' + 1) - 1 := by omega
            rw [hidx] at this
            have hval : k + 1 + i' + 1 = k + (i' + 1) + 1 := by omega
            rw [hval] at this
            exact this
    · -- loop guard fails: normal exit
      refine ⟨acc, [], ?_, by simp⟩
      simp only [catalogRun]
      rw [if_neg hguard]
      simp

/-- C3: against a server that reports page numbers honestly (the `page`
field of call k+1 is one past that of call k, starting at 1) and whose
reported `total_pages` never grows across calls, the catalog paginator
terminates — fuel `total_pages(first response) + 2` suffices for the loop
to exit normally — and every request after the first asks for a page
number no greater than the `total_pages` reported by the immediately
preceding response. -/
theorem c3_paginator_terminates (resp : Nat → PageResponse)
    (hp0 : (resp 0).page = 1)
    (hp : ∀ k, (resp (k + 1)).page = (resp k).page + 1)
    (hs : ∀ k, (resp (k + 1)).total_pages ≤ (resp k).total_pages) :
    ∃ titles reqs,
      pullCatalogPlatform (fun i => some (resp i))
          ((resp 0).total_pages + 2) =
        some (.ok (titles, reqs)) ∧
      ∀ j, j + 1 < reqs.length →
        reqs.getD (j + 1) 0 ≤ (resp j).total_pages := by
  have hpk := resp_page_eq resp hp0 hp
  have hstep := catalogRun_echo_terminates resp hpk hs
    ((resp 0).total_pages + 1) 1 (([] : List Nat) ++ (resp 0).titles)
    (([] : List Nat) ++ [1]) (by omega) (by omega) (by omega) (by simp)
  obtain ⟨titles, tail, heq, htail⟩ := hstep
  refine ⟨titles, ([] ++ [1]) ++ tail, ?_, ?_⟩
  · unfold pullCatalogPlatform
    show catalogRun (fun i => some (resp i)) ((resp 0).total_pages + 1 + 1)
      1 2 0 [] [] = _
    simp only [catalogRun]
    rw [if_pos (by omega)]
    rw [hpk 0]
    simpa using heq
  · intro j hj
    have hjlen : j < tail.length := by simpa using hj
    have h' := htail j hjlen
    have hget : (([] ++ [1]) ++ tail).getD (j + 1) 0 = tail.getD j 0 := by
      simp [List.getD_append_right]
    rw [hget, h'.1]
    have := h'.2
    simpa using this

/-- C3 (witness): a concrete honest server whose reported `total_pages`
shrinks (5, 4, 3, ...): the paginator exits normally within the computed
fuel and never requests past the last reported total. -/
theorem c3_paginator_terminates_witness :
    ∃ titles reqs,
      pullCatalogPlatform
          (fun i => some ⟨i + 1, 5 - i, []⟩) (5 + 2) =
        some (.ok (titles, reqs)) ∧
      ∀ j, j + 1 < reqs.length →
        reqs.getD (j + 1) 0 ≤ ((fun i => (⟨i + 1, 5 - i, []⟩ : PageResponse)) j).total_pages :=
  c3_paginator_terminates (fun i => ⟨i + 1, 5 - i, []⟩) (by simp)
    (fun k => by simp)
    (fun k => by show 5 - (k + 1) ≤ 5 - k; omega)

/- ------------------------------------------------------------------
C6.  Field reconciler: the movie/tv field unification inside
`pull_tmdb_details` in `src/utils/update_data.py`.
------------------------------------------------------------------ -/

/-- A raw TMDB detail response restricted to the relevant fields, as in the
key-projection at the top of the per-title loop.  Every field may be
absent (`response.get` returns `None` for a missing key). -/
structure RawDetail where
  id : Option Int
  vote_average : Option ℚ
  vote_count : Option Int
  popularity : Option ℚ
  original_language : Option String
  origin_country : Option (List String)
  genres : Option (List String)
  title : Option String
  release_date : Option String
  runtime : Option ℚ
  status : Option String
  name : Option String
  first_air_date : Option String
  episode_run_time : Option (List ℚ)
  number_of_episodes : Option ℚ
deriving DecidableEq

/-- `np.mean` over a non-empty list of rationals. -/
def listMean (l : List ℚ) : ℚ := l.sum / l.length

/-- The field-reconciliation block of the per-title loop: fill `title`
from `name`, `release_date` from `first_air_date`, and estimate `runtime`
as `mean(episode_run_time) * number_of_episodes` when `runtime` is absent,
`episode_run_time` is a present non-empty list and `number_of_episodes` is
present. -/
def reconcileDetail (r : RawDetail) : RawDetail :=
  let r1 := if r.title.isNone then { r with title := r.name } else r
  let r2 :=
    if r1.release_date.isNone then
      { r1 with release_date := r1.first_air_date }
    else r1
  if r2.runtime.isNone then
    match r2.episode_run_time, r2.number_of_episodes with
    | some ert, some n =>
      if 0 < ert.length then { r2 with runtime := some (listMean ert * n) }
      else r2
    | _, _ => r2
  else r2

/-- A raw detail record with every field absent. -/
def emptyRawDetail : RawDetail :=
  { id := none, vote_average := none, vote_count := none, popularity := none,
    original_language := none, origin_country := none, genres := none,
    title := none, release_date := none, runtime := none, status := none,
    name := none, first_air_date := none, episode_run_time := none,
    number_of_episodes := none }

/-- C6: the reconciler takes `title` if present else `name`, `release_date`
if present else `first_air_date`, and `runtime` if present, else
`mean(episode_run_time) * number_of_episodes` exactly when
`episode_run_time` is a present non-empty list and `number_of_episodes` is
present, else leaves `runtime` absent.  In particular
`episode_run_time = [22, 24, 26]` with `number_of_episodes = 10` and no
`runtime` yields runtime 240, and an absent `episode_run_time` leaves
`runtime` unset. -/
theorem c6_field_reconciler (r : RawDetail) :
    ((reconcileDetail r).title =
      match r.title with
      | some t => some t
      | none => r.name) ∧
    ((reconcileDetail r).release_date =
      match r.release_date with
      | some d => some d
      | none => r.first_air_date) ∧
    ((reconcileDetail r).runtime =
      match r.runtime with
      | some v => some v
      | none =>
        match r.episode_run_time, r.number_of_episodes with
        | some ert, some n =>
          if 0 < ert.length then some (listMean ert * n) else none
        | _, _ => none) ∧
    (reconcileDetail
      { emptyRawDetail with
          episode_run_time := some [22, 24, 26],
          number_of_episodes := some 10 }).runtime = some 240 ∧
    (reconcileDetail
      { emptyRawDetail with number_of_episodes := some 10 }).runtime =
      none := by
  obtain ⟨i, va, vc, pop, ol, oc, gs, ti, rd, rt, st, nm, fad, ert, ne⟩ := r
  refine ⟨?_, ?_, ?_, ?_, by rfl⟩
  · cases ti <;> cases rd <;> cases rt <;> cases ert <;> cases ne <;>
      simp [reconcileDetail] <;> split <;> rfl
  · cases ti <;> cases rd <;> cases rt <;> cases ert <;> cases ne <;>
      simp [reconcileDetail] <;> split <;> rfl
  · cases ti <;> cases rd <;> cases rt <;> cases ert <;> cases ne <;>
      simp [reconcileDetail] <;> split <;> rfl
  · show (reconcileDetail
      { emptyRawDetail with
          episode_run_time := some [22, 24, 26],
          number_of_episodes := some 10 }).runtime = some 240
    simp [reconcileDetail, emptyRawDetail, listMean]
    norm_num

/- ------------------------------------------------------------------
C5.  Missing fetches inside a chunk / inside the platform loop.
------------------------------------------------------------------ -/

/-- The per-title body of a chunk in `pull_tmdb_details`: fetch the title's
details through the retry wrapper; a `None` (exhausted retries) increments
the `missing` counter and contributes nothing, a present response is
reconciled and appended.  Returns the chunk's output and the missing
count. -/
def processChunk (fetch : Nat → Option RawDetail) (chunk : List Nat) :
    List (Nat × RawDetail) × Nat :=
  chunk.foldl
    (fun st t =>
      match fetch t with
      | some resp => (st.1 ++ [(t, reconcileDetail resp)], st.2)
      | none => (st.1, st.2 + 1))
    ([], 0)

/-- A fetch function whose title 2 permanently fails and whose other
titles return an empty-ish detail record. -/
def fetchMissingTwo : Nat → Option RawDetail :=
  fun t => if t == 2 then none else some emptyRawDetail

/-- C5 (code bug): a permanently-failed title-detail fetch inside a chunk
is indeed counted as missing and skipped (first two conjuncts) — but a
permanently-failed catalog page fetch is not: `pull_watchmode_catalogs`
dereferences the retry wrapper's `None` return unchecked
(`page_results.get("titles")`), raising and aborting the platform loop and
the run (last conjunct, the `.error` outcome). -/
theorem c5_failed_fetch_handling :
    (processChunk fetchMissingTwo [1, 2, 3]).1 =
      [(1, reconcileDetail emptyRawDetail),
        (3, reconcileDetail emptyRawDetail)] ∧
    (processChunk fetchMissingTwo [1, 2, 3]).2 = 1 ∧
    pullCatalogPlatform (fun _ => none) 5 = some (.error ()) := by
  refine ⟨by decide, by decide, ?_⟩
  simp [pullCatalogPlatform, catalogRun]

/- ------------------------------------------------------------------
C9.  Refresh gate: `check_refresh` in `src/utils/update_data.py`.
Dates are modelled as day numbers (`Int`), so `today - last_update` is the
elapsed number of days.
------------------------------------------------------------------ -/

/-- `check_refresh(engine, gap=15)`: reads the latest snapshot date and
declines the refresh when one exists and fewer than 15 days have passed.
The `gap` parameter is accepted (default 15 in the source) but the
comparison hard-codes the literal 15. -/
def check_refresh (today : Int) (last_update : Option Int) (gap : Int) :
    Bool :=
  match last_update with
  | some d => if today - d < 15 then false else true
  | none => true

/-- C9 (code bug): with `minIntervalDays = 30` and only 20 elapsed days the
gate still returns true — the claim (and the function's own docstring,
"if today - last refresh < gap then returns False") requires false.  The
second conjunct shows the gate's result never depends on the `gap`
argument: the threshold is fixed at 15. -/
theorem c9_refresh_gate_ignores_gap :
    ((120 : Int) - 100 < 30 ∧ check_refresh 120 (some 100) 30 = true) ∧
    ∀ (today d gap : Int),
      check_refresh today (some d) gap = check_refresh today (some d) 15 :=
  ⟨⟨by norm_num, by decide⟩, fun _ _ _ => rfl⟩

/- ------------------------------------------------------------------
C8.  Platform discovery: `pull_watchmode_sources` in
`src/utils/update_data.py`.  The upstream sources endpoint is a function
from the request's `types` and `regions` parameters to the source list.
------------------------------------------------------------------ -/

/-- One entry of the watchmode `/sources/` response (`platform.get("id")`,
`platform.get("name")`). -/
structure SourceRecord where
  id : Option Int
  name : Option String
deriving DecidableEq

/-- One row of the staged `platforms` table. -/
structure PlatformRow where
  platform_id : Option Int
  name : Option String
  region : String
  type : String
deriving DecidableEq

/-- Worker for `dedupKeepFirst`: `seen` holds the values already kept. -/
def dedupKeepFirstAux [DecidableEq α] (seen : List α) : List α → List α
  | [] => []
  | x :: xs =>
    if x ∈ seen then dedupKeepFirstAux seen xs
    else x :: dedupKeepFirstAux (x :: seen) xs

/-- `DataFrame.drop_duplicates()`: keep the first occurrence of each
distinct row. -/
def dedupKeepFirst [DecidableEq α] (l : List α) : List α :=
  dedupKeepFirstAux [] l

theorem mem_dedupKeepFirstAux [DecidableEq α] (l : List α) :
    ∀ (seen : List α) (a : α),
      a ∈ dedupKeepFirstAux seen l ↔ a ∈ l ∧ a ∉ seen := by
  induction l with
  | nil => intro seen a; simp [dedupKeepFirstAux]
  | cons x xs ih =>
    intro seen a
    by_cases hx : x ∈ seen
    · rw [show dedupKeepFirstAux seen (x :: xs) = dedupKeepFirstAux seen xs
        from by simp [dedupKeepFirstAux, hx]]
      rw [ih seen a]
      constructor
      · rintro ⟨h1, h2⟩; exact ⟨List.mem_cons_of_mem x h1, h2⟩
      · rintro ⟨h1, h2⟩
        rcases List.mem_cons.mp h1 with rfl | h1
        · exact absurd hx h2
        · exact ⟨h1, h2⟩
    · rw [show dedupKeepFirstAux seen (x :: xs) =
          x :: dedupKeepFirstAux (x :: seen) xs
        from by simp [dedupKeepFirstAux, hx]]
      rw [List.mem_cons, ih (x :: seen) a]
      constructor
      · rintro (rfl | ⟨h1, h2⟩)
        · exact ⟨List.mem_cons_self a xs, hx⟩
        · exact ⟨List.mem_cons_of_mem x h1,
            fun hs => h2 (List.mem_cons_of_mem x hs)⟩
      · rintro ⟨h1, h2⟩
        rcases List.mem_cons.mp h1 with rfl | h1
        · exact Or.inl rfl
        · by_cases hax : a = x
          · exact Or.inl hax
          · refine Or.inr ⟨h1, fun hs => ?_⟩
            rcases List.mem_cons.mp hs with h | h
            · exact hax h
            · exact h2 h

theorem mem_dedupKeepFirst [DecidableEq α] (l : List α) (a : α) :
    a ∈ dedupKeepFirst l ↔ a ∈ l := by
  unfold dedupKeepFirst
  rw [mem_dedupKeepFirstAux]
  simp

theorem nodup_dedupKeepFirstAux [DecidableEq α] (l : List α) :
    ∀ seen : List α, (dedupKeepFirstAux seen l).Nodup := by
  induction l with
  | nil => intro seen; simp [dedupKeepFirstAux]
  | cons x xs ih =>
    intro seen
    by_cases hx : x ∈ seen
    · simpa [dedupKeepFirstAux, hx] using ih seen
    · rw [show dedupKeepFirstAux seen (x :: xs) =
          x :: dedupKeepFirstAux (x :: seen) xs
        from by simp [dedupKeepFirstAux, hx]]
      rw [List.nodup_cons]
      refine ⟨fun hmem => ?_, ih (x :: seen)⟩
      have := ((mem_dedupKeepFirstAux xs (x :: seen) x).mp hmem).2
      exact this (List.mem_cons_self x seen)

theorem nodup_dedupKeepFirst [DecidableEq α] (l : List α) :
    (dedupKeepFirst l).Nodup :=
  nodup_dedupKeepFirstAux l []

/-- `pull_watchmode_sources(engine, source_region, source_type)`: requests
the sources endpoint with the hard-coded parameters `types="sub"`,
`regions="US"` (the `source_region`/`source_type` arguments are not passed
to the request), labels each returned source with the *requested* region
and type, drops duplicate rows, and appends to the staged `platforms`
table (`to_sql(..., if_exists="append")`). -/
def pull_watchmode_sources (upstream : String → String → List SourceRecord)
    (source_region source_type : String) (prior : List PlatformRow) :
    List PlatformRow :=
  let platforms := upstream "sub" "US"
  let rows := dedupKeepFirst (platforms.map (fun p =>
    { platform_id := p.id, name := p.name, region := source_region,
      type := source_type }))
  prior ++ rows

/-- A mock upstream with different sources for (sub, US) and (free, CA). -/
def upstreamMock : String → String → List SourceRecord :=
  fun types regions =>
    if types == "sub" && regions == "US" then [⟨some 1, some "Netflix"⟩]
    else if types == "free" && regions == "CA" then [⟨some 2, some "Tubi"⟩]
    else []

/-- A row staged by a previous, aborted run. -/
def priorPlatformRow : PlatformRow :=
  ⟨some 99, some "Stale", "CA", "free"⟩

/-- C8 (counterexample): requesting catalog type "free" in region "CA"
with one stale staged row, the staged table afterwards still contains the
stale row (appended to, not replaced), and contains the source matching
the hard-coded sub/US request rather than the requested free/CA one. -/
theorem c8_staging_not_replaced :
    pull_watchmode_sources upstreamMock "CA" "free" [priorPlatformRow] =
      [priorPlatformRow, ⟨some 1, some "Netflix", "CA", "free"⟩] ∧
    priorPlatformRow ∈
      pull_watchmode_sources upstreamMock "CA" "free" [priorPlatformRow] ∧
    (⟨some 2, some "Tubi", "CA", "free"⟩ : PlatformRow) ∉
      pull_watchmode_sources upstreamMock "CA" "free" [priorPlatformRow] :=
  ⟨by decide, by decide, by decide⟩

/-- C8 (amended): after platform discovery the staged platforms table
holds its prior rows unchanged, followed by a duplicate-free batch
consisting exactly of the sources returned for the fixed request
`types="sub", regions="US"` (regardless of the requested values), each
labeled with the requested catalog type and region. -/
theorem c8_sources_appended
    (upstream : String → String → List SourceRecord)
    (source_region source_type : String) (prior : List PlatformRow) :
    ∃ fresh,
      pull_watchmode_sources upstream source_region source_type prior =
        prior ++ fresh ∧
      fresh.Nodup ∧
      ∀ x, x ∈ fresh ↔ ∃ s ∈ upstream "sub" "US",
        x = { platform_id := s.id, name := s.name, region := source_region,
              type := source_type } := by
  refine ⟨_, rfl, nodup_dedupKeepFirst _, ?_⟩
  intro x
  rw [mem_dedupKeepFirst, List.mem_map]
  constructor
  · rintro ⟨s, hs, rfl⟩
    exact ⟨s, hs, rfl⟩
  · rintro ⟨s, hs, rfl⟩
    exact ⟨s, hs, rfl⟩

/- ------------------------------------------------------------------
C10.  Top-N genre / country: `get_top_genre_data` and
`get_top_country_data` in `src/utils/DataConnector.py`.
------------------------------------------------------------------ -/

/-- Insertion for a descending sort by a numeric key (the relative order of
equal keys is incidental, as is pandas' unstable `sort_values` and SQL's
unordered `ROW_NUMBER` ties — spec §9 leaves ties unresolved). -/
def insertDescBy (key : α → Nat) (x : α) : List α → List α
  | [] => [x]
  | y :: ys => if key y ≤ key x then x :: y :: ys else y :: insertDescBy key x ys

/-- `sort_values(..., ascending=False)` / `ORDER BY ... DESC` by a numeric
key. -/
def sortDescBy (key : α → Nat) : List α → List α
  | [] => []
  | x :: xs => insertDescBy key x (sortDescBy key xs)

/-- Worker for `headPerGroup`: `seen` records the group keys of the rows
already kept. -/
def headPerGroupAux (key : α → κ) [DecidableEq κ] (n : Nat) :
    List κ → List α → List α
  | _, [] => []
  | seen, x :: xs =>
    if seen.count (key x) < n then
      x :: headPerGroupAux key n (key x :: seen) xs
    else headPerGroupAux key n seen xs

/-- `groupby(...).head(n)` over an already-ordered list /
`ROW_NUMBER() OVER (PARTITION BY ...) <= n`: keep the first `n` rows of
each group, preserving order. -/
def headPerGroup (key : α → κ) [DecidableEq κ] (n : Nat) (l : List α) :
    List α :=
  headPerGroupAux key n [] l

/-- Distinct-title count (`title_id.nunique()` / `COUNT(DISTINCT
title_id)`) over the rows selected by `pred`. -/
def nuniqueTitles (rows : List Row) (pred : Row → Bool) : Nat :=
  ((rows.filter pred).map (·.title_id)).dedup.length

/-- Demo branch of `get_top_genre_data`: group the filtered snapshot by
(platform, genre) — pandas drops null group keys — count distinct
title_ids, sort descending, keep the first 3 per platform.  The `n`
parameter is accepted but the head size is the literal 3. -/
def get_top_genre_data_demo (f : FilterState) (T : List Row) (n : Nat) :
    List (String × String × Nat) :=
  let filtered := filterDemoData f T
  let agg :=
    ((filtered.filterMap
        (fun r => r.genre.map (fun g => (r.platform, g)))).dedup).map
      (fun k => (k.1, k.2,
        nuniqueTitles filtered
          (fun r => r.platform == k.1 && r.genre == some k.2)))
  headPerGroup (fun e => e.1) 3 (sortDescBy (fun e => e.2.2) agg)

/-- Query branch of `get_top_genre_data`: same aggregation over the
generated subquery (SQL `GROUP BY` keeps a NULL genre group, hence the
`Option String` key), ranked per platform with cutoff `rnk <= n`. -/
def get_top_genre_data_db (f : FilterState) (T : List Row) (n : Nat) :
    List (String × Option String × Nat) :=
  let filtered := constructFilteredSubquery f T
  let agg :=
    ((filtered.map (fun r => (r.platform, r.genre))).dedup).map
      (fun k => (k.1, k.2,
        nuniqueTitles filtered
          (fun r => r.platform == k.1 && r.genre == k.2)))
  headPerGroup (fun e => e.1) n (sortDescBy (fun e => e.2.2) agg)

/-- Demo branch of `get_top_country_data`: group by (platform, media_type,
country), count distinct title_ids, sort descending, keep the first 3 per
(platform, media_type); `n` is accepted but unused. -/
def get_top_country_data_demo (f : FilterState) (T : List Row) (n : Nat) :
    List ((String × String × String) × Nat) :=
  let filtered := filterDemoData f T
  let agg :=
    ((filtered.filterMap
        (fun r => r.country.map
          (fun c => (r.platform, r.media_type, c)))).dedup).map
      (fun k => (k,
        nuniqueTitles filtered
          (fun r => r.platform == k.1 && r.media_type == k.2.1 &&
            r.country == some k.2.2)))
  headPerGroup (fun e => (e.1.1, e.1.2.1)) 3 (sortDescBy (fun e => e.2) agg)

/-- Query branch of `get_top_country_data`: NULL countries are excluded
(`WHERE country IS NOT NULL`), grouped by (platform, media_type, country),
ranked per (platform, media_type) with cutoff `rnk <= n`. -/
def get_top_country_data_db (f : FilterState) (T : List Row) (n : Nat) :
    List ((String × String × String) × Nat) :=
  let filtered := constructFilteredSubquery f T
  let agg :=
    ((filtered.filterMap
        (fun r => r.country.map
          (fun c => (r.platform, r.media_type, c)))).dedup).map
      (fun k => (k,
        nuniqueTitles filtered
          (fun r => r.platform == k.1 && r.media_type == k.2.1 &&
            r.country == some k.2.2)))
  headPerGroup (fun e => (e.1.1, e.1.2.1)) n (sortDescBy (fun e => e.2) agg)

theorem headPerGroupAux_filter_le (key : α → κ) [DecidableEq κ] (n : Nat)
    (p : κ) (l : List α) :
    ∀ seen : List κ, seen.count p ≤ n →
      ((headPerGroupAux key n seen l).filter
          (fun x => decide (key x = p))).length + seen.count p ≤ n := by
  induction l with
  | nil => intro seen hc; simpa [headPerGroupAux] using hc
  | cons x xs ih =>
    intro seen hc
    by_cases hlt : seen.count (key x) < n
    · rw [show headPerGroupAux key n seen (x :: xs) =
          x :: headPerGroupAux key n (key x :: seen) xs
        from by simp [headPerGroupAux, hlt]]
      by_cases hxp : key x = p
      · have hcount : (key x :: seen).count p = seen.count p + 1 := by
          simp [List.count_cons, hxp]
        have hcp : seen.count p < n := by rw [← hxp]; exact hlt
        have := ih (key x :: seen) (by omega)
        rw [hcount] at this
        simp only [List.filter_cons]
        rw [if_pos (by simpa using hxp)]
        simp only [List.length_cons]
        omega
      · have hcount : (key x :: seen).count p = seen.count p := by
          simp [List.count_cons]
          intro h
          exact hxp h
        have := ih (key x :: seen) (by omega)
        rw [hcount] at this
        simp only [List.filter_cons]
        rw [if_neg (by simpa using hxp)]
        exact this
    · rw [show headPerGroupAux key n seen (x :: xs) =
          headPerGroupAux key n seen xs
        from by simp [headPerGroupAux, hlt]]
      exact ih seen hc

theorem headPerGroup_filter_le (key : α → κ) [DecidableEq κ] (n : Nat)
    (p : κ) (l : List α) :
    ((headPerGroup key n l).filter
        (fun x => decide (key x = p))).length ≤ n := by
  have := headPerGroupAux_filter_le key n p l [] (by simp)
  simpa [headPerGroup] using this

/-- Two one-date rows on platform "P": title 100 with genre "A" and title
101 with genre "B". -/
def twoGenreTable : List Row :=
  [rowA, { rowA with title_id := 101, tmdb_id := 11, genre := some "B" }]

/-- A filter state with every dimension unconstrained (rating null, so the
in-memory sentinel bug does not interfere). -/
def openFilter : FilterState :=
  { media_type := [], platform := [], rating := none, release_year := none,
    genre := [], country := [], language := [] }

/-- C10: in demo mode the top-genre and top-country results are
independent of the `n` parameter and contain at most 3 entries per
platform (resp. per platform and media type) — the head size is the
literal 3 — whereas the query path's per-group entry count is bounded by
the supplied `n`, on which it genuinely depends (last conjunct: 1 entry at
n=1, 2 entries at n=2, same data). -/
theorem c10_demo_top_n_fixed_at_three :
    (∀ (f : FilterState) (T : List Row) (n m : Nat),
      get_top_genre_data_demo f T n = get_top_genre_data_demo f T m) ∧
    (∀ (f : FilterState) (T : List Row) (n m : Nat),
      get_top_country_data_demo f T n = get_top_country_data_demo f T m) ∧
    (∀ (f : FilterState) (T : List Row) (n : Nat) (p : String),
      ((get_top_genre_data_demo f T n).filter
          (fun e => decide (e.1 = p))).length ≤ 3) ∧
    (∀ (f : FilterState) (T : List Row) (n : Nat) (p q : String),
      ((get_top_country_data_demo f T n).filter
          (fun e => decide ((e.1.1, e.1.2.1) = (p, q)))).length ≤ 3) ∧
    (∀ (f : FilterState) (T : List Row) (n : Nat) (p : String),
      ((get_top_genre_data_db f T n).filter
          (fun e => decide (e.1 = p))).length ≤ n) ∧
    (∀ (f : FilterState) (T : List Row) (n : Nat) (p q : String),
      ((get_top_country_data_db f T n).filter
          (fun e => decide ((e.1.1, e.1.2.1) = (p, q)))).length ≤ n) ∧
    ((get_top_genre_data_db openFilter twoGenreTable 1).length = 1 ∧
      (get_top_genre_data_db openFilter twoGenreTable 2).length = 2) := by
  refine ⟨fun f T n m => rfl, fun f T n m => rfl, ?_, ?_, ?_, ?_,
    by decide, by decide⟩
  · intro f T n p
    exact headPerGroup_filter_le _ 3 p _
  · intro f T n p q
    exact headPerGroup_filter_le _ 3 (p, q) _
  · intro f T n p
    exact headPerGroup_filter_le _ n p _
  · intro f T n p q
    exact headPerGroup_filter_le _ n (p, q) _

/- ------------------------------------------------------------------
C7.  Catalog change: `get_change_data` in `src/utils/DataConnector.py`
(the query path; the demo branch returns nothing).  The generated CTE
chain is interpreted over a list of fact rows standing for `analytics`.
------------------------------------------------------------------ -/

/-- The `SELECT DISTINCT platform, date, media_type, tmdb_id` projection,
dates being constant within `current` / `previous`. -/
def changeTriple (r : Row) : String × String × Int :=
  (r.platform, r.media_type, r.tmdb_id)

/-- The `last_two_dates` CTE: the two-dates filtered subquery. -/
def changeLtd (f : FilterState) (T : List Row) : List Row :=
  constructFilteredSubqueryTwoDates f T

/-- `SELECT MAX(date) FROM last_two_dates`. -/
def changeCurDate (f : FilterState) (T : List Row) : Option Int :=
  ((changeLtd f T).map (·.date)).max?

/-- `SELECT DISTINCT date FROM last_two_dates ORDER BY date DESC LIMIT 1
OFFSET 1`: the second most recent distinct date, i.e. the maximum among
rows older than the maximum (`none` when no second date exists, in which
case the `previous` CTE is empty, matching SQL's never-true `date = NULL`
comparison). -/
def changePrevDate (f : FilterState) (T : List Row) : Option Int :=
  (((changeLtd f T).filter
      (fun r => some r.date != changeCurDate f T)).map (·.date)).max?

/-- The `current` CTE as a set of distinct (platform, media_type, tmdb_id)
triples. -/
def currentTriples (f : FilterState) (T : List Row) :
    Finset (String × String × Int) :=
  (((changeLtd f T).filter
      (fun r => some r.date == changeCurDate f T)).map changeTriple).toFinset

/-- The `previous` CTE as a set of distinct triples. -/
def previousTriples (f : FilterState) (T : List Row) :
    Finset (String × String × Int) :=
  (((changeLtd f T).filter
      (fun r => some r.date == changePrevDate f T)).map changeTriple).toFinset

/-- The `comparison` CTE: `current FULL OUTER JOIN previous` on the whole
triple, with the `in_current` / `in_previous` flags — matched triples,
current-only triples, and previous-only triples. -/
def changeComparison (f : FilterState) (T : List Row) :
    Finset ((String × String × Int) × Bool × Bool) :=
  ((currentTriples f T ∩ previousTriples f T).image
      (fun t => (t, true, true))) ∪
    ((currentTriples f T \ previousTriples f T).image
      (fun t => (t, true, false))) ∪
    ((previousTriples f T \ currentTriples f T).image
      (fun t => (t, false, true)))

/-- The platforms of the `gain_loss` CTE (`GROUP BY platform` over the
full outer join, platform taken from `COALESCE(current, previous)`). -/
def changePlatforms (f : FilterState) (T : List Row) : Finset String :=
  (changeComparison f T).image (fun x => x.1.1)

/-- `movie_gained`: count of comparison rows with media_type 'movie',
`in_current = 1`, `in_previous = 0`, for the given platform. -/
def movie_gained (f : FilterState) (T : List Row) (p : String) : Int :=
  (((changeComparison f T).filter
      (fun x => x.1.1 = p ∧ x.1.2.1 = "movie" ∧ x.2.1 = true ∧
        x.2.2 = false)).card : Int)

/-- `movie_lost`: `-1 *` the count of comparison rows with media_type
'movie', `in_current = 0`, `in_previous = 1`. -/
def movie_lost (f : FilterState) (T : List Row) (p : String) : Int :=
  -(((changeComparison f T).filter
      (fun x => x.1.1 = p ∧ x.1.2.1 = "movie" ∧ x.2.1 = false ∧
        x.2.2 = true)).card : Int)

/-- `tv_gained`, as `movie_gained` with media_type 'tv'. -/
def tv_gained (f : FilterState) (T : List Row) (p : String) : Int :=
  (((changeComparison f T).filter
      (fun x => x.1.1 = p ∧ x.1.2.1 = "tv" ∧ x.2.1 = true ∧
        x.2.2 = false)).card : Int)

/-- `tv_lost`, as `movie_lost` with media_type 'tv'. -/
def tv_lost (f : FilterState) (T : List Row) (p : String) : Int :=
  -(((changeComparison f T).filter
      (fun x => x.1.1 = p ∧ x.1.2.1 = "tv" ∧ x.2.1 = false ∧
        x.2.2 = true)).card : Int)

/-- `net_change = movie_gained + movie_lost + tv_gained + tv_lost`. -/
def net_change (f : FilterState) (T : List Row) (p : String) : Int :=
  movie_gained f T p + movie_lost f T p + tv_gained f T p + tv_lost f T p

theorem changeComparison_gained_card (f : FilterState) (T : List Row)
    (p m : String) :
    ((changeComparison f T).filter
        (fun x => x.1.1 = p ∧ x.1.2.1 = m ∧ x.2.1 = true ∧
          x.2.2 = false)).card =
      ((currentTriples f T \ previousTriples f T).filter
        (fun t => t.1 = p ∧ t.2.1 = m)).card := by
  have himg : (changeComparison f T).filter
      (fun x => x.1.1 = p ∧ x.1.2.1 = m ∧ x.2.1 = true ∧ x.2.2 = false) =
      ((currentTriples f T \ previousTriples f T).filter
        (fun t => t.1 = p ∧ t.2.1 = m)).image (fun t => (t, true, false)) := by
    ext ⟨t, b1, b2⟩
    cases b1 <;> cases b2 <;>
      simp [changeComparison, Finset.mem_filter, Finset.mem_union,
        Finset.mem_image, Finset.mem_inter, Finset.mem_sdiff,
        Prod.ext_iff] <;>
      aesop
  rw [himg]
  exact Finset.card_image_of_injective _
    (fun a b h => by simpa using congrArg Prod.fst h)

theorem changeComparison_lost_card (f : FilterState) (T : List Row)
    (p m : String) :
    ((changeComparison f T).filter
        (fun x => x.1.1 = p ∧ x.1.2.1 = m ∧ x.2.1 = false ∧
          x.2.2 = true)).card =
      ((previousTriples f T \ currentTriples f T).filter
        (fun t => t.1 = p ∧ t.2.1 = m)).card := by
  have himg : (changeComparison f T).filter
      (fun x => x.1.1 = p ∧ x.1.2.1 = m ∧ x.2.1 = false ∧ x.2.2 = true) =
      ((previousTriples f T \ currentTriples f T).filter
        (fun t => t.1 = p ∧ t.2.1 = m)).image (fun t => (t, false, true)) := by
    ext ⟨t, b1, b2⟩
    cases b1 <;> cases b2 <;>
      simp [changeComparison, Finset.mem_filter, Finset.mem_union,
        Finset.mem_image, Finset.mem_inter, Finset.mem_sdiff,
        Prod.ext_iff] <;>
      aesop
  rw [himg]
  exact Finset.card_image_of_injective _
    (fun a b h => by simpa using congrArg Prod.fst h)

theorem mem_changePlatforms (f : FilterState) (T : List Row) (p : String) :
    p ∈ changePlatforms f T ↔
      (∃ t ∈ currentTriples f T, t.1 = p) ∨
        (∃ t ∈ previousTriples f T, t.1 = p) := by
  simp only [changePlatforms, changeComparison, Finset.image_union,
    Finset.image_image, Finset.mem_union, Finset.mem_image]
  constructor
  · rintro ((⟨t, ht, hp⟩ | ⟨t, ht, hp⟩) | ⟨t, ht, hp⟩)
    · exact Or.inl ⟨t, (Finset.mem_inter.mp ht).1, hp⟩
    · exact Or.inl ⟨t, (Finset.mem_sdiff.mp ht).1, hp⟩
    · exact Or.inr ⟨t, (Finset.mem_sdiff.mp ht).1, hp⟩
  · rintro (⟨t, ht, hp⟩ | ⟨t, ht, hp⟩)
    · by_cases htp : t ∈ previousTriples f T
      · exact Or.inl (Or.inl ⟨t, Finset.mem_inter.mpr ⟨ht, htp⟩, hp⟩)
      · exact Or.inl (Or.inr ⟨t, Finset.mem_sdiff.mpr ⟨ht, htp⟩, hp⟩)
    · by_cases htc : t ∈ currentTriples f T
      · exact Or.inl (Or.inl ⟨t, Finset.mem_inter.mpr ⟨htc, ht⟩, hp⟩)
      · exact Or.inr ⟨t, Finset.mem_sdiff.mpr ⟨ht, htc⟩, hp⟩

/-- The spec's worked example: day 1 holds titles 1, 2, 3 and day 2 holds
titles 1, 4, 5, all movies on platform "P". -/
def changeExampleTable : List Row :=
  [{ rowA with date := 1, tmdb_id := 1, title_id := 1 },
    { rowA with date := 1, tmdb_id := 2, title_id := 2 },
    { rowA with date := 1, tmdb_id := 3, title_id := 3 },
    { rowA with date := 2, tmdb_id := 1, title_id := 1 },
    { rowA with date := 2, tmdb_id := 4, title_id := 4 },
    { rowA with date := 2, tmdb_id := 5, title_id := 5 }]

/-- C7: over the two most recent distinct dates of the filtered fact rows,
`movie_gained` counts the platform's movie triples present on the later
date and absent on the earlier; `movie_lost` is the negated count of movie
triples present on the earlier date and absent on the later (non-positive);
`tv_gained`/`tv_lost` analogously; `net_change` is the sum of the four; and
a platform appears in the output exactly when it carries a triple on
either date — so a platform present on only one date still appears, its
count for the missing side being the count over an empty difference, i.e.
zero.  The final conjuncts check the spec's worked example
({1,2,3} then {1,4,5}, all movies on "P"): gained 2, lost -2, net 0. -/
theorem c7_catalog_change :
    (∀ (f : FilterState) (T : List Row) (p : String),
      (p ∈ changePlatforms f T ↔
        (∃ t ∈ currentTriples f T, t.1 = p) ∨
          (∃ t ∈ previousTriples f T, t.1 = p)) ∧
      movie_gained f T p =
        (((currentTriples f T \ previousTriples f T).filter
          (fun t => t.1 = p ∧ t.2.1 = "movie")).card : Int) ∧
      movie_lost f T p =
        -((((previousTriples f T \ currentTriples f T).filter
          (fun t => t.1 = p ∧ t.2.1 = "movie")).card : Int)) ∧
      tv_gained f T p =
        (((currentTriples f T \ previousTriples f T).filter
          (fun t => t.1 = p ∧ t.2.1 = "tv")).card : Int) ∧
      tv_lost f T p =
        -((((previousTriples f T \ currentTriples f T).filter
          (fun t => t.1 = p ∧ t.2.1 = "tv")).card : Int)) ∧
      net_change f T p =
        movie_gained f T p + movie_lost f T p + tv_gained f T p +
          tv_lost f T p) ∧
    movie_gained openFilter changeExampleTable "P" = 2 ∧
    movie_lost openFilter changeExampleTable "P" = -2 ∧
    net_change openFilter changeExampleTable "P" = 0 := by
  refine ⟨fun f T p => ⟨mem_changePlatforms f T p, ?_, ?_, ?_, ?_, rfl⟩,
    by decide, by decide, by decide⟩
  · unfold movie_gained
    rw [changeComparison_gained_card]
  · unfold movie_lost
    rw [changeComparison_lost_card]
  · unfold tv_gained
    rw [changeComparison_gained_card]
  · unfold tv_lost
    rw [changeComparison_lost_card]
